import Mathlib

/-!
Verification of the balena-cli OS-version resolution and download pipeline
(`src/lib/utils/cloud.ts`) and the release export/import commands
(`src/lib/commands/release/export.ts`, `src/lib/commands/release/import.ts`),
via a shallow embedding in Lean.

JavaScript strings are modelled as Lean `String`s, with the JS string
operations used by the code (`s[0]`, `slice`, `endsWith`, `indexOf`,
`substring`) given as character-list based helpers that mirror the JS
semantics at the character level.  Promises/exceptions are modelled with
`Except String`; remote collaborators (the SDK catalog, the image manager,
the interactive prompt, the unzip extractor, the filesystem) are passed in
as explicit environment functions.
-/

namespace BalenaCli

/-- JS `s.endsWith(suffix)`. -/
def jsEndsWith (s suffix : String) : Bool :=
  suffix.data.isSuffixOf s.data

/-- JS `s[0]`: the first character of a string, if any. -/
def jsFirstChar (s : String) : Option Char :=
  s.data.head?

/-- JS `s.slice(n)`: drop the first `n` characters. -/
def jsDropChars (s : String) (n : Nat) : String :=
  ⟨s.data.drop n⟩

/-- JS `s.indexOf(' ')`, as `none` instead of `-1` when there is no space. -/
def jsIndexOfSpace (s : String) : Option Nat :=
  s.data.findIdx? (· = ' ')

/-- JS `s.substring(i)`: the suffix of `s` starting at character index `i`. -/
def jsSubstringFrom (s : String) (i : Nat) : String :=
  ⟨s.data.drop i⟩

/-- The fields of `SDK.OsVersion` that `cloud.ts` reads or writes. -/
structure OsVersion where
  rawVersion : String
  formattedVersion : String
  osType : String
  isRecommended : Bool
deriving Repr, DecidableEq

/-- A menu choice as built by `selectOSVersionFromMenu`. -/
structure Choice where
  value : String
  name : String
deriving Repr, DecidableEq

/-- The `ExpectedError` message thrown by `getFormattedOsVersions` when the
filtered version list is empty (after `stripIndent`). -/
def noVersionsFoundMessage (deviceType : String) : String :=
  "Error: No balenaOS versions found for device type '" ++ deviceType ++
    "'.\nDouble-check the device type slug with 'balena devices supported'."

/-- The `.map` body in `getFormattedOsVersions`: reformat `formattedVersion`
from the upstream label, branching on `formattedVersion.indexOf(' ')`. -/
def reformatOsVersion (v : OsVersion) : OsVersion :=
  match jsIndexOfSpace v.formattedVersion with
  | none => { v with formattedVersion := "v" ++ v.rawVersion }
  | some i =>
    { v with
      formattedVersion := "v" ++ v.rawVersion ++ jsSubstringFrom v.formattedVersion i }

/-- `getFormattedOsVersions` from `cloud.ts`.  The remote
`sdk.models.hostapp.getAvailableOsVersions` result (after the `?? []`
device-type lookup) is the `catalog` environment function. -/
def getFormattedOsVersions (catalog : String → List OsVersion)
    (deviceType : String) (esr : Bool) : Except String (List OsVersion) :=
  let versions :=
    ((catalog deviceType).filter
        (fun v => v.osType == (if esr then "esr" else "default"))).map
      reformatOsVersion
  if versions.isEmpty then
    Except.error (noVersionsFoundMessage deviceType)
  else
    Except.ok versions

/-- The interactive prompt collaborator `getCliForm().ask` for a `list`
question: receives the choices and the default pre-selection, returns the
selected value or fails (user cancellation). -/
abbrev AskFn := List Choice → Option String → Except String String

/-- `selectOSVersionFromMenu` from `cloud.ts`. -/
def selectOSVersionFromMenu (catalog : String → List OsVersion) (ask : AskFn)
    (deviceType : String) (esr : Bool) : Except String String := do
  let vs ← getFormattedOsVersions catalog deviceType esr
  let choices := vs.map (fun v => { value := v.rawVersion, name := v.formattedVersion : Choice })
  ask choices
    (((vs.find? (fun v => v.isRecommended)).orElse (fun _ => vs.head?)).map
      (fun v => v.rawVersion))

/-- The `version[0] === 'v'` strip step of `resolveOSVersion`. -/
def stripLeadingV (version : String) : String :=
  if jsFirstChar version = some 'v' then jsDropChars version 1 else version

/-- The suffix step of `resolveOSVersion`: append `.prod` unless the string
already ends in `.dev` or `.prod`. -/
def appendProdIfNeeded (version : String) : String :=
  if !jsEndsWith version ".dev" && !jsEndsWith version ".prod" then
    version ++ ".prod"
  else
    version

/-- `resolveOSVersion` from `cloud.ts`. -/
def resolveOSVersion (catalog : String → List OsVersion) (ask : AskFn)
    (deviceType : String) (version : String) : Except String String :=
  if version = "menu" ∨ version = "menu-esr" then
    selectOSVersionFromMenu catalog ask deviceType (version == "menu-esr")
  else
    Except.ok (appendProdIfNeeded (stripLeadingV version))

/-- An event emitted by the `balena-image-manager` download stream, in
emission order. -/
inductive StreamEvent where
  | resolvedVersion (v : String)
  | progress (state : Option Nat)
  | streamEnd
  | streamError (msg : String)
deriving Repr, DecidableEq

/-- The stream returned by `manager.get`: its ordered event sequence, its
`mime` custom property, and the payload bytes it pipes to the output. -/
structure ImageStream where
  events : List StreamEvent
  mime : String
  payload : List Nat
deriving Repr, DecidableEq

/-- A call made on the progress visuals (`visuals.Progress` bar /
`visuals.Spinner`), including their construction. -/
inductive RenderEvent where
  | barCreate (label : String)
  | spinnerCreate (label : String)
  | barUpdate (state : Nat)
  | spinnerStart
  | spinnerStop
deriving Repr, DecidableEq

/-- What ends up at `outputPath`: either a directory of extracted zip
entries, or a single file holding the raw stream payload. -/
inductive FileOutput where
  | extractedDir (path : String) (entries : List (String × List Nat))
  | singleFile (path : String) (bytes : List Nat)
deriving Repr, DecidableEq

/-- The external collaborators of `cloud.ts`: the version catalog, the
interactive prompt, the image manager (`manager.get`), and the streaming
unzip extractor (`node-unzip-2`). -/
structure CloudEnv where
  catalog : String → List OsVersion
  ask : AskFn
  managerGet : String → String → Except String ImageStream
  unzipExtract : List Nat → Except String (List (String × List Nat))

/-- The `await new Promise(...)` step of `downloadOSImage`: the promise
settles with the payload of the first `resolved-version` event, or rejects
with the first `error` event, whichever comes first; events before that
point have no other handler attached and are skipped.  A stream that closes
without either would leave the promise pending forever; that hang is
modelled as an error. -/
def awaitResolvedVersion : List StreamEvent → Except String (String × List StreamEvent)
  | [] => Except.error "stream closed before resolved-version"
  | StreamEvent.streamError m :: _ => Except.error m
  | StreamEvent.resolvedVersion v :: rest => Except.ok (v, rest)
  | StreamEvent.progress _ :: rest => awaitResolvedVersion rest
  | StreamEvent.streamEnd :: rest => awaitResolvedVersion rest

/-- The `stream.on('progress', ...)` / `stream.on('end', ...)` handlers:
a non-null progress state updates the bar, a null state starts the spinner,
and `end` stops the spinner. -/
def progressRenders : List StreamEvent → List RenderEvent
  | [] => []
  | StreamEvent.progress (some s) :: rest => RenderEvent.barUpdate s :: progressRenders rest
  | StreamEvent.progress none :: rest => RenderEvent.spinnerStart :: progressRenders rest
  | StreamEvent.streamEnd :: rest => RenderEvent.spinnerStop :: progressRenders rest
  | _ :: rest => progressRenders rest

/-- The first `error` event in a sequence of stream events, if any: it is
what `streamToPromise(stream.pipe(output))` rejects with. -/
def firstStreamError : List StreamEvent → Option String
  | [] => none
  | StreamEvent.streamError m :: _ => some m
  | _ :: rest => firstStreamError rest

/-- The output-stage branch of `downloadOSImage` (lines 176-189): the
decision relies entirely on the stream's `mime` custom property. -/
def chooseOutputStage (env : CloudEnv) (stream : ImageStream)
    (outputPath : String) : Except String FileOutput :=
  if stream.mime == "application/zip" then
    (env.unzipExtract stream.payload).map (FileOutput.extractedDir outputPath)
  else
    Except.ok (FileOutput.singleFile outputPath stream.payload)

/-- One run of `downloadOSImage`, as observed from outside: `console.info`
and `console.warn` lines, the version string passed to `manager.get` (if the
run got that far), the calls made on the progress visuals, and the overall
result (the `FileOutput` and the returned `outputPath`, or the error the
rejected promise propagates). -/
structure DownloadRun where
  infos : List String
  warnings : List String
  requested : Option String
  renders : List RenderEvent
  outcome : Except String (FileOutput × String)
deriving Repr

/-- JS truthiness of the `OSVersion?` parameter: the empty string counts as
absent. -/
def effectiveOSVersion (OSVersion : Option String) : Option String :=
  match OSVersion with
  | some v => if v = "" then none else some v
  | none => none

/-- The `console.warn` emitted when no (truthy) version was passed. -/
def downloadWarnings (OSVersion : Option String) : List String :=
  match effectiveOSVersion OSVersion with
  | none => ["OS version not specified: using latest released version"]
  | some _ => []

/-- The ternary of `downloadOSImage` line 136-138:
`OSVersion ? await resolveOSVersion(deviceType, OSVersion) : 'default'`. -/
def resolvedVersionOf (env : CloudEnv) (deviceType : String)
    (OSVersion : Option String) : Except String String :=
  match effectiveOSVersion OSVersion with
  | some v => resolveOSVersion env.catalog env.ask deviceType v
  | none => Except.ok "default"

/-- The part of a `downloadOSImage` run after the `resolved-version` promise
has settled successfully: progress rendering, the output-stage branch, and
the final drain (`streamToPromise(stream.pipe(output))`). -/
def downloadAfterResolved (env : CloudEnv) (outputPath : String)
    (infos warnings : List String) (version : String) (stream : ImageStream)
    (displayVersion : String) (rest : List StreamEvent) : DownloadRun :=
  let renders :=
    RenderEvent.barCreate ("Downloading balenaOS version " ++ displayVersion) ::
      RenderEvent.spinnerCreate
        ("Downloading balenaOS version " ++ displayVersion ++ " (size unknown)") ::
      progressRenders rest
  match firstStreamError rest with
  | some e =>
    { infos, warnings, requested := some version, renders,
      outcome := Except.error e }
  | none =>
    match chooseOutputStage env stream outputPath with
    | Except.error e =>
      { infos, warnings, requested := some version, renders,
        outcome := Except.error e }
    | Except.ok out =>
      { infos := infos ++
          ["balenaOS image version " ++ displayVersion ++ " downloaded successfully"],
        warnings, requested := some version, renders,
        outcome := Except.ok (out, outputPath) }

/-- The part of a `downloadOSImage` run from `manager.get` onwards, for an
already-resolved `version`. -/
def downloadStreamPhase (env : CloudEnv) (deviceType outputPath : String)
    (infos warnings : List String) (version : String) : DownloadRun :=
  match env.managerGet deviceType version with
  | Except.error e =>
    { infos, warnings, requested := some version, renders := [],
      outcome := Except.error e }
  | Except.ok stream =>
    match awaitResolvedVersion stream.events with
    | Except.error e =>
      { infos, warnings, requested := some version, renders := [],
        outcome := Except.error e }
    | Except.ok (displayVersion, rest) =>
      downloadAfterResolved env outputPath infos warnings version stream
        displayVersion rest

/-- `downloadOSImage` from `cloud.ts`.  `OSVersion? : string` is modelled as
`Option String`; JS truthiness makes the empty string count as absent. -/
def downloadOSImage (env : CloudEnv) (deviceType outputPath : String)
    (OSVersion : Option String) : DownloadRun :=
  let infos := ["Getting device operating system for " ++ deviceType]
  let warnings := downloadWarnings OSVersion
  match resolvedVersionOf env deviceType OSVersion with
  | Except.error e =>
    { infos, warnings, requested := none, renders := [], outcome := Except.error e }
  | Except.ok version =>
    downloadStreamPhase env deviceType outputPath infos warnings version

/-- A process-local memoization cache as kept by `_.memoize`: a map from the
resolver's string key to the stored result, modelled as an association list
with most-recent insertions in front. -/
abbrev MemoCache (β : Type) := List (String × β)

/-- `_.memoize(f, keyOf)` applied at one argument, with the cache made
explicit: on a hit the stored value is returned and the cache is unchanged;
on a miss the body runs once and the result is stored under the key. -/
def memoCall {α β : Type} (keyOf : α → String) (f : α → β)
    (cache : MemoCache β) (x : α) : β × MemoCache β :=
  match cache.lookup (keyOf x) with
  | some v => (v, cache)
  | none =>
    let v := f x
    (v, (keyOf x, v) :: cache)

/-- `_.memoize` for a body that itself threads another cache (state `σ`):
on a hit the body is not run, so the inner state is untouched. -/
def memoCallM {α β σ : Type} (keyOf : α → String) (f : α → σ → β × σ)
    (cache : MemoCache β) (st : σ) (x : α) : β × MemoCache β × σ :=
  match cache.lookup (keyOf x) with
  | some v => (v, cache, st)
  | none =>
    let r := f x st
    (r.1, (keyOf x, r.1) :: cache, r.2)

/-- The `service` resource record with the `service_name` field selected. -/
structure Service where
  service_name : String
deriving Repr, DecidableEq

/-- An `SDK.Application` record, modelled as its field map so that lodash
`_.isEmpty` is emptiness of the map. -/
structure Application where
  fields : List (String × String)
deriving Repr, DecidableEq

/-- An `SDK.Device` record as used here: its expanded
`belongs_to__application` array. -/
structure Device where
  belongs_to__application : List Application
deriving Repr, DecidableEq

/-- The pine options built by `getDeviceAndMaybeAppFromUUID`: which app
fields the `$expand` selects (`none` = expand everything), and the optional
device `$select`. -/
structure PineDeviceOptions where
  expandAppSelect : Option (List String)
  deviceSelect : Option (List String)
deriving Repr, DecidableEq

/-- The SDK collaborator for the memoized helpers: `sdk.pine.get` on the
`service` resource, and `sdk.models.device.get` (which throws when the
device is not found). -/
structure SdkHandle where
  pineGetService : Int → Option Service
  deviceGet : String → PineDeviceOptions → Except String Device

/-- The body of `serviceIdToName` (inside the `_.memoize`). -/
def serviceIdToNameBody (sdk : SdkHandle) (serviceId : Int) : Option String :=
  match sdk.pineGetService serviceId with
  | some serviceName => some serviceName.service_name
  | none => none

/-- `serviceIdToName` from `cloud.ts`: the body memoized on
`(_sdk, id) => id.toString()`. -/
def serviceIdToName (cache : MemoCache (Option String)) (sdk : SdkHandle)
    (serviceId : Int) : Option String × MemoCache (Option String) :=
  memoCall (fun args => toString args.2)
    (fun args => serviceIdToNameBody args.1 args.2) cache (sdk, serviceId)

/-- The full argument tuple of the two UUID-keyed memoized lookups. -/
structure DeviceLookupArgs where
  sdk : SdkHandle
  deviceUUID : String
  selectDeviceFields : Option (List String)
  selectAppFields : Option (List String)

/-- The `ExpectedError` message of `getDeviceAndAppFromUUID` (after
`stripIndent`). -/
def unableToAccessFleetMessage (deviceUUID : String) : String :=
  "Unable to access the fleet that device " ++ deviceUUID ++ " belongs to.\n" ++
    "Hint: check whether the fleet owner withdrew access to it."

/-- The body of `getDeviceAndMaybeAppFromUUID` (inside the `_.memoize`). -/
def getDeviceAndMaybeAppFromUUIDBody (args : DeviceLookupArgs) :
    Except String (Device × Option Application) := do
  let pineOpts : PineDeviceOptions :=
    { expandAppSelect := args.selectAppFields,
      deviceSelect := args.selectDeviceFields }
  let device ← args.sdk.deviceGet args.deviceUUID pineOpts
  match device.belongs_to__application with
  | [] => return (device, none)
  | a :: _ =>
    if a.fields.isEmpty then return (device, none) else return (device, some a)

/-- `getDeviceAndMaybeAppFromUUID` from `cloud.ts`: the body memoized on
`(_sdk, deviceUUID) => deviceUUID`. -/
def getDeviceAndMaybeAppFromUUID
    (cache : MemoCache (Except String (Device × Option Application)))
    (sdk : SdkHandle) (deviceUUID : String)
    (selectDeviceFields selectAppFields : Option (List String)) :
    Except String (Device × Option Application) ×
      MemoCache (Except String (Device × Option Application)) :=
  memoCall (fun args => args.deviceUUID) getDeviceAndMaybeAppFromUUIDBody cache
    ⟨sdk, deviceUUID, selectDeviceFields, selectAppFields⟩

/-- `getDeviceAndAppFromUUID` from `cloud.ts`: its body calls the memoized
`getDeviceAndMaybeAppFromUUID` (threading that function's cache) and throws
when the application is inaccessible; the body is itself memoized on
`(_sdk, deviceUUID) => deviceUUID`. -/
def getDeviceAndAppFromUUID
    (cacheA : MemoCache (Except String (Device × Application)))
    (cacheM : MemoCache (Except String (Device × Option Application)))
    (sdk : SdkHandle) (deviceUUID : String)
    (selectDeviceFields selectAppFields : Option (List String)) :
    Except String (Device × Application) ×
      MemoCache (Except String (Device × Application)) ×
      MemoCache (Except String (Device × Option Application)) :=
  memoCallM (fun (args : DeviceLookupArgs) => args.deviceUUID)
    (fun args st =>
      match getDeviceAndMaybeAppFromUUID st args.sdk args.deviceUUID
          args.selectDeviceFields args.selectAppFields with
      | (Except.error e, st2) => (Except.error e, st2)
      | (Except.ok (device, some app), st2) => (Except.ok (device, app), st2)
      | (Except.ok (_, none), st2) =>
        (Except.error (unableToAccessFleetMessage args.deviceUUID), st2))
    cacheA cacheM ⟨sdk, deviceUUID, selectDeviceFields, selectAppFields⟩

/-- A release record with `$select: ['id']`. -/
structure ReleaseRec where
  id : Int
deriving Repr, DecidableEq

/-- An application record with `$select: ['id']`. -/
structure AppRec where
  id : Int
deriving Repr, DecidableEq

/-- The collaborators of `ReleaseExportCmd.run`: `balena.models.release.get`,
`create` from `@balena/release-bundle`, and `fs.writeFile`. -/
structure ReleaseExportEnv where
  releaseGet : String → Except String ReleaseRec
  bundleCreate : Int → Except String (List Nat)
  writeFile : String → List Nat → Except String Unit

/-- The success message printed at the end of `ReleaseExportCmd.run`. -/
def exportSuccessMessage (commitOrId output : String) : String :=
  "Release " ++ commitOrId ++ " has been exported to " ++ output ++ "."

/-- The `try` block of `ReleaseExportCmd.run`: create the release bundle
and write it to the output path, either of which may throw. -/
def exportTryResult (env : ReleaseExportEnv) (releaseId : Int)
    (output : String) : Except String Unit := do
  let releaseBundle ← env.bundleCreate releaseId
  env.writeFile output releaseBundle

/-- `ReleaseExportCmd.run`: returns the `console.log` lines, or the error of
the uncaught `release.get` step. -/
def releaseExportRun (env : ReleaseExportEnv) (commitOrId output : String) :
    Except String (List String) :=
  match env.releaseGet commitOrId with
  | Except.error e => Except.error e
  | Except.ok release =>
    Except.ok
      ((match exportTryResult env release.id output with
        | Except.ok _ => []
        | Except.error e =>
          ["Release " ++ commitOrId ++ " could not be exported. " ++ e]) ++
        [exportSuccessMessage commitOrId output])

/-- The collaborators of `ReleaseImportCmd.run`:
`balena.models.application.get` and `apply` from `@balena/release-bundle`
(taking the application id and the bundle read-stream path). -/
structure ReleaseImportEnv where
  applicationGet : String → Except String AppRec
  applyBundle : Int → String → Except String Unit

/-- JS string interpolation of `options.fleet`, which prints `undefined`
when the flag is absent. -/
def fleetDisplay : Option String → String
  | some f => f
  | none => "undefined"

/-- The success message printed at the end of `ReleaseImportCmd.run`. -/
def importSuccessMessage (bundlePath : String) (fleet : Option String) : String :=
  "Release bundle " ++ bundlePath ++ " has been applied to " ++
    fleetDisplay fleet ++ "."

/-- The `try` block of `ReleaseImportCmd.run`: the fleet-flag type check,
the application lookup and the bundle apply, any of which may throw. -/
def importTryResult (env : ReleaseImportEnv) (bundlePath : String)
    (fleet : Option String) : Except String Unit := do
  match fleet with
  | none => Except.error "Fleet must be a number or slug."
  | some f =>
    let application ← env.applicationGet f
    env.applyBundle application.id bundlePath

/-- `ReleaseImportCmd.run`: returns the `console.log` lines.  Every failure
inside the `try` block is caught and logged, so the run itself never
fails. -/
def releaseImportRun (env : ReleaseImportEnv) (bundlePath : String)
    (fleet : Option String) : List String :=
  let tryLogs :=
    match importTryResult env bundlePath fleet with
    | Except.ok _ => []
    | Except.error e =>
      ["Could not apply release bundle to fleet " ++ fleetDisplay fleet ++ ". " ++ e]
  tryLogs ++ [importSuccessMessage bundlePath fleet]

/-- Claim C1: for every version token other than `menu` and `menu-esr`,
`resolveOSVersion` strips a single leading `v` if present and then appends
`.prod` unless the string already ends in `.dev` or `.prod`, performing no
catalog query (the result does not depend on the catalog or the prompt);
in particular `v2.60.1+rev1` resolves to `2.60.1+rev1.prod`,
`2.60.1+rev1.dev` is unchanged, and `latest` becomes `latest.prod`. -/
theorem resolveOSVersion_nonmenu_spec :
    (∀ (catalog : String → List OsVersion) (ask : AskFn)
        (deviceType version : String),
        version ≠ "menu" → version ≠ "menu-esr" →
        resolveOSVersion catalog ask deviceType version =
          Except.ok (appendProdIfNeeded (stripLeadingV version))) ∧
    (∀ (catalog : String → List OsVersion) (ask : AskFn) (deviceType : String),
        resolveOSVersion catalog ask deviceType "v2.60.1+rev1" =
            Except.ok "2.60.1+rev1.prod" ∧
          resolveOSVersion catalog ask deviceType "2.60.1+rev1.dev" =
            Except.ok "2.60.1+rev1.dev" ∧
          resolveOSVersion catalog ask deviceType "latest" =
            Except.ok "latest.prod") := by
  constructor
  · intro catalog ask deviceType version h1 h2
    have hne : ¬(version = "menu" ∨ version = "menu-esr") := by
      rintro (h | h) <;> [exact h1 h; exact h2 h]
    simp [resolveOSVersion, hne]
  · intro catalog ask deviceType
    refine ⟨?_, ?_, ?_⟩ <;>
      · rw [resolveOSVersion]
        rw [if_neg (by decide)]
        congr 1

/-- Witness for C1 at a concrete input. -/
theorem resolveOSVersion_nonmenu_spec_witness :
    resolveOSVersion (fun _ => []) (fun _ _ => Except.error "cancelled")
        "raspberrypi4-64" "latest" =
      Except.ok (appendProdIfNeeded (stripLeadingV "latest")) :=
  resolveOSVersion_nonmenu_spec.1 (fun _ => [])
    (fun _ _ => Except.error "cancelled") "raspberrypi4-64" "latest"
    (by decide) (by decide)

/-- Claim C3: when the catalog partition filtered to the requested ESR or
default `osType` is empty, `getFormattedOsVersions` fails with the
`ExpectedError` whose message names the device type, and returns no
versions. -/
theorem getFormattedOsVersions_empty_fails :
    ∀ (catalog : String → List OsVersion) (deviceType : String) (esr : Bool),
      (catalog deviceType).filter
          (fun v => v.osType == (if esr then "esr" else "default")) = [] →
      getFormattedOsVersions catalog deviceType esr =
          Except.error (noVersionsFoundMessage deviceType) ∧
        ∃ pre post, noVersionsFoundMessage deviceType = pre ++ deviceType ++ post := by
  intro catalog deviceType esr h
  refine ⟨?_, "Error: No balenaOS versions found for device type '",
    "'.\nDouble-check the device type slug with 'balena devices supported'.", rfl⟩
  unfold getFormattedOsVersions
  rw [h]
  rfl

/-- Witness for C3 at a concrete input: an empty catalog. -/
theorem getFormattedOsVersions_empty_fails_witness :
    getFormattedOsVersions (fun _ => []) "unknown-device" false =
        Except.error (noVersionsFoundMessage "unknown-device") ∧
      ∃ pre post,
        noVersionsFoundMessage "unknown-device" = pre ++ "unknown-device" ++ post :=
  getFormattedOsVersions_empty_fails (fun _ => []) "unknown-device" false rfl

/-- The descriptor belongs to the requested catalog partition. -/
def MatchesRequestedPartition (esr : Bool) (v : OsVersion) : Prop :=
  v.osType = (if esr then "esr" else "default")

/-- The descriptor arises from an upstream catalog descriptor by the
`formattedVersion` rewrite of `getFormattedOsVersions`: `"v" + rawVersion`
when the upstream label has no space, otherwise `"v" + rawVersion` followed
by the upstream label's suffix from its first space. -/
def ReformattedFrom (upstream : List OsVersion) (v : OsVersion) : Prop :=
  ∃ u ∈ upstream,
    v.rawVersion = u.rawVersion ∧ v.osType = u.osType ∧
      v.formattedVersion =
        match jsIndexOfSpace u.formattedVersion with
        | none => "v" ++ u.rawVersion
        | some i => "v" ++ u.rawVersion ++ jsSubstringFrom u.formattedVersion i

/-- The descriptor's display label starts with `"v"`. -/
def StartsWithV (v : OsVersion) : Prop :=
  ∃ rest, v.formattedVersion = "v" ++ rest

/-- Inversion: a successful `getFormattedOsVersions` returns exactly the
filtered-then-reformatted catalog partition. -/
theorem getFormattedOsVersions_ok_eq (catalog : String → List OsVersion)
    (deviceType : String) (esr : Bool) (vs : List OsVersion)
    (h : getFormattedOsVersions catalog deviceType esr = Except.ok vs) :
    vs = ((catalog deviceType).filter
        (fun u => u.osType == (if esr then "esr" else "default"))).map
      reformatOsVersion := by
  simp only [getFormattedOsVersions] at h
  set L := ((catalog deviceType).filter
      (fun u => u.osType == (if esr then "esr" else "default"))).map
    reformatOsVersion with hL
  by_cases hemp : L.isEmpty = true
  · rw [if_pos hemp] at h
    cases h
  · rw [if_neg hemp] at h
    simpa using h.symm

/-- A member of a filtered-then-reformatted partition matches the partition
tag and carries the documented `formattedVersion` rewrite. -/
theorem reformatted_partition_mem (upstream : List OsVersion) (t : String)
    (v : OsVersion)
    (hv : v ∈ (upstream.filter (fun u => u.osType == t)).map reformatOsVersion) :
    v.osType = t ∧ ReformattedFrom upstream v ∧ StartsWithV v := by
  rcases List.mem_map.1 hv with ⟨u, hu, rfl⟩
  rw [List.mem_filter] at hu
  rcases hu with ⟨humem, hp⟩
  rw [beq_iff_eq] at hp
  cases hidx : jsIndexOfSpace u.formattedVersion with
  | none =>
    refine ⟨?_, ⟨u, humem, ?_, ?_, ?_⟩, ⟨u.rawVersion, ?_⟩⟩ <;>
      simp [reformatOsVersion, hidx, hp]
  | some i =>
    refine ⟨?_, ⟨u, humem, ?_, ?_, ?_⟩,
        ⟨u.rawVersion ++ jsSubstringFrom u.formattedVersion i, ?_⟩⟩ <;>
      simp [reformatOsVersion, hidx, hp, String.append_assoc]

/-- Claim C2: on success, `getFormattedOsVersions` returns only descriptors
of the requested partition (`esr` vs `default`), each obtained from an
upstream catalog descriptor by the documented `formattedVersion` rewrite;
consequently every returned `formattedVersion` starts with `"v"`. -/
theorem getFormattedOsVersions_filter_format :
    ∀ (catalog : String → List OsVersion) (deviceType : String) (esr : Bool)
      (vs : List OsVersion),
      getFormattedOsVersions catalog deviceType esr = Except.ok vs →
      ∀ v ∈ vs,
        MatchesRequestedPartition esr v ∧
          ReformattedFrom (catalog deviceType) v ∧ StartsWithV v := by
  intro catalog deviceType esr vs h v hv
  rw [getFormattedOsVersions_ok_eq catalog deviceType esr vs h] at hv
  exact reformatted_partition_mem (catalog deviceType)
    (if esr then "esr" else "default") v hv

/-- Demo catalog used to witness C2: one `default`-partition entry whose
upstream label carries a codename after a space. -/
def demoCatalog : String → List OsVersion :=
  fun _ =>
    [{ rawVersion := "2.88.4.prod", formattedVersion := "2.88.4 (kirkstone)",
       osType := "default", isRecommended := true }]

/-- Witness for C2 at a concrete catalog. -/
theorem getFormattedOsVersions_filter_format_witness :
    MatchesRequestedPartition false
        { rawVersion := "2.88.4.prod", formattedVersion := "v2.88.4.prod (kirkstone)",
          osType := "default", isRecommended := true } ∧
      ReformattedFrom (demoCatalog "raspberrypi4-64")
        { rawVersion := "2.88.4.prod", formattedVersion := "v2.88.4.prod (kirkstone)",
          osType := "default", isRecommended := true } ∧
      StartsWithV
        { rawVersion := "2.88.4.prod", formattedVersion := "v2.88.4.prod (kirkstone)",
          osType := "default", isRecommended := true } :=
  getFormattedOsVersions_filter_format (demoCatalog) "raspberrypi4-64" false
    [{ rawVersion := "2.88.4.prod", formattedVersion := "v2.88.4.prod (kirkstone)",
       osType := "default", isRecommended := true }] rfl
    { rawVersion := "2.88.4.prod", formattedVersion := "v2.88.4.prod (kirkstone)",
      osType := "default", isRecommended := true } (by simp)

/-- The two-descriptor catalog of claim C8: `A` not recommended, `B`
recommended. -/
def menuDemoCatalog : String → List OsVersion :=
  fun _ =>
    [{ rawVersion := "A", formattedVersion := "vA", osType := "default",
       isRecommended := false },
     { rawVersion := "B", formattedVersion := "vB", osType := "default",
       isRecommended := true }]

/-- A prompt collaborator that always selects the default pre-selection and
cancels when there is none. -/
def defaultPicker : AskFn :=
  fun _ dflt =>
    match dflt with
    | some v => Except.ok v
    | none => Except.error "cancelled"

/-- Claim C8: the menu asks with the choice list built in catalog order
(name = `formattedVersion`, value = `rawVersion`) and with the default
pre-selection being the first recommended descriptor's `rawVersion`, or the
first descriptor's when none is recommended; with the claim's two-descriptor
catalog and a picker that always selects the default, the selection is
`B`. -/
theorem selectOSVersionFromMenu_spec :
    (∀ (catalog : String → List OsVersion) (ask : AskFn) (deviceType : String)
        (esr : Bool) (vs : List OsVersion),
        getFormattedOsVersions catalog deviceType esr = Except.ok vs →
        selectOSVersionFromMenu catalog ask deviceType esr =
          ask (vs.map (fun v => { value := v.rawVersion, name := v.formattedVersion }))
            (match vs.find? (fun v => v.isRecommended) with
             | some v => some v.rawVersion
             | none => vs.head?.map (fun v => v.rawVersion))) ∧
    selectOSVersionFromMenu menuDemoCatalog defaultPicker "demo-device" false =
      Except.ok "B" := by
  constructor
  · intro catalog ask deviceType esr vs h
    rw [selectOSVersionFromMenu, h]
    show ask _ _ = ask _ _
    congr 1
    cases hf : vs.find? (fun v => v.isRecommended) with
    | some v => simp [Option.orElse]
    | none => cases hh : vs.head? <;> simp [Option.orElse]
  · rfl

/-- Witness for C8's general part: with the demo catalog, the menu call is
the `ask` call on the built choices and default. -/
theorem selectOSVersionFromMenu_spec_witness :
    selectOSVersionFromMenu menuDemoCatalog defaultPicker "demo-device" false =
      defaultPicker
        ((menuDemoCatalog "demo-device").map
          (fun v => { value := v.rawVersion, name := v.formattedVersion }))
        (match (menuDemoCatalog "demo-device").find? (fun v => v.isRecommended) with
         | some v => some v.rawVersion
         | none => (menuDemoCatalog "demo-device").head?.map (fun v => v.rawVersion)) :=
  selectOSVersionFromMenu_spec.1 menuDemoCatalog defaultPicker "demo-device" false
    (menuDemoCatalog "demo-device") rfl

/-- Every branch of the stream phase records the version it passed to
`manager.get`. -/
theorem downloadStreamPhase_requested (env : CloudEnv)
    (deviceType outputPath : String) (infos warnings : List String)
    (version : String) :
    (downloadStreamPhase env deviceType outputPath infos warnings version).requested =
      some version := by
  unfold downloadStreamPhase downloadAfterResolved
  split
  · rfl
  · split
    · rfl
    · split
      · rfl
      · split <;> rfl

/-- Every branch of the stream phase keeps the `console.warn` lines. -/
theorem downloadStreamPhase_warnings (env : CloudEnv)
    (deviceType outputPath : String) (infos warnings : List String)
    (version : String) :
    (downloadStreamPhase env deviceType outputPath infos warnings version).warnings =
      warnings := by
  unfold downloadStreamPhase downloadAfterResolved
  split
  · rfl
  · split
    · rfl
    · split
      · rfl
      · split <;> rfl

/-- When token resolution succeeds, a `downloadOSImage` run is the stream
phase at the resolved version. -/
theorem downloadOSImage_eq_streamPhase (env : CloudEnv)
    (deviceType outputPath : String) (OSVersion : Option String) (version : String)
    (h : resolvedVersionOf env deviceType OSVersion = Except.ok version) :
    downloadOSImage env deviceType outputPath OSVersion =
      downloadStreamPhase env deviceType outputPath
        ["Getting device operating system for " ++ deviceType]
        (downloadWarnings OSVersion) version := by
  unfold downloadOSImage
  rw [h]

/-- A recorded requested version means token resolution succeeded with it. -/
theorem downloadOSImage_requested_ok (env : CloudEnv)
    (deviceType outputPath : String) (OSVersion : Option String) (version : String)
    (h : (downloadOSImage env deviceType outputPath OSVersion).requested =
      some version) :
    resolvedVersionOf env deviceType OSVersion = Except.ok version := by
  cases hr : resolvedVersionOf env deviceType OSVersion with
  | error e =>
    unfold downloadOSImage at h
    rw [hr] at h
    simp at h
  | ok v =>
    rw [downloadOSImage_eq_streamPhase env deviceType outputPath OSVersion v hr,
      downloadStreamPhase_requested] at h
    cases h
    rfl

/-- Claim C4 (amended): when `downloadOSImage` is invoked with an absent or
empty version token, the literal string `"default"` is what gets requested
from the image store — `resolveOSVersion` is not consulted for it — and the
advisory diagnostic is emitted. -/
theorem downloadOSImage_default_literal :
    ∀ (env : CloudEnv) (deviceType outputPath : String)
      (OSVersion : Option String),
      OSVersion = none ∨ OSVersion = some "" →
      (downloadOSImage env deviceType outputPath OSVersion).requested =
          some "default" ∧
        (downloadOSImage env deviceType outputPath OSVersion).warnings =
          ["OS version not specified: using latest released version"] := by
  intro env deviceType outputPath OSVersion h
  have heff : effectiveOSVersion OSVersion = none := by
    rcases h with rfl | rfl <;> rfl
  have hres : resolvedVersionOf env deviceType OSVersion = Except.ok "default" := by
    unfold resolvedVersionOf
    rw [heff]
  have hwarn : downloadWarnings OSVersion =
      ["OS version not specified: using latest released version"] := by
    unfold downloadWarnings
    rw [heff]
  rw [downloadOSImage_eq_streamPhase env deviceType outputPath OSVersion "default" hres]
  rw [downloadStreamPhase_requested, downloadStreamPhase_warnings]
  exact ⟨rfl, hwarn⟩

/-- A demo stream for concrete download runs: resolves its version, reports
progress, and ends. -/
def demoStream : ImageStream :=
  { events := [StreamEvent.resolvedVersion "2.108.27",
               StreamEvent.progress (some 50), StreamEvent.streamEnd],
    mime := "application/octet-stream",
    payload := [1, 2, 3] }

/-- A demo environment for concrete download runs. -/
def demoEnv : CloudEnv :=
  { catalog := demoCatalog,
    ask := defaultPicker,
    managerGet := fun _ _ => Except.ok demoStream,
    unzipExtract := fun bytes => Except.ok [("image.img", bytes)] }

/-- Witness for C4's amended statement at a concrete input. -/
theorem downloadOSImage_default_literal_witness :
    (downloadOSImage demoEnv "raspberrypi4-64" "/tmp/balena.img" none).requested =
        some "default" ∧
      (downloadOSImage demoEnv "raspberrypi4-64" "/tmp/balena.img" none).warnings =
        ["OS version not specified: using latest released version"] :=
  downloadOSImage_default_literal demoEnv "raspberrypi4-64" "/tmp/balena.img" none
    (Or.inl rfl)

/-- Counterexample to claim C4 as stated: with the version token absent, the
version requested from the image store is the literal `"default"`, while
`resolveOSVersion` applied to `"default"` yields `"default.prod"`; the two
differ, so the requested version is not `resolve(deviceType, 'default')`. -/
theorem downloadOSImage_default_counterexample :
    (downloadOSImage demoEnv "raspberrypi4-64" "/tmp/balena.img" none).requested =
        some "default" ∧
      resolveOSVersion demoEnv.catalog demoEnv.ask "raspberrypi4-64" "default" =
        Except.ok "default.prod" ∧
      ¬ ((downloadOSImage demoEnv "raspberrypi4-64" "/tmp/balena.img" none).requested =
          (resolveOSVersion demoEnv.catalog demoEnv.ask "raspberrypi4-64"
              "default").toOption) := by
  refine ⟨rfl, rfl, by decide⟩

/-- Inversion of a successful stream phase: the stream opened, the resolved
version arrived, the drain saw no stream error, the output stage succeeded,
the returned path is `outputPath`, and the completion message names the
display version. -/
theorem downloadStreamPhase_outcome_ok (env : CloudEnv)
    (deviceType outputPath : String) (infos warnings : List String)
    (version : String) (out : FileOutput) (p : String)
    (h : (downloadStreamPhase env deviceType outputPath infos warnings
        version).outcome = Except.ok (out, p)) :
    ∃ stream displayVersion rest,
      env.managerGet deviceType version = Except.ok stream ∧
        awaitResolvedVersion stream.events = Except.ok (displayVersion, rest) ∧
        firstStreamError rest = none ∧
        chooseOutputStage env stream outputPath = Except.ok out ∧
        p = outputPath ∧
        (downloadStreamPhase env deviceType outputPath infos warnings
            version).infos =
          infos ++
            ["balenaOS image version " ++ displayVersion ++
              " downloaded successfully"] := by
  unfold downloadStreamPhase at h ⊢
  cases hm : env.managerGet deviceType version with
  | error e => rw [hm] at h; simp at h
  | ok stream =>
    rw [hm] at h
    simp only [] at h
    cases ha : awaitResolvedVersion stream.events with
    | error e => rw [ha] at h; simp at h
    | ok pr =>
      obtain ⟨displayVersion, rest⟩ := pr
      rw [ha] at h
      simp only [] at h
      unfold downloadAfterResolved at h
      cases hf : firstStreamError rest with
      | some e => rw [hf] at h; simp at h
      | none =>
        rw [hf] at h
        simp only [] at h
        cases hc : chooseOutputStage env stream outputPath with
        | error e => rw [hc] at h; simp at h
        | ok out2 =>
          rw [hc] at h
          simp only [] at h
          rw [Except.ok.injEq, Prod.mk.injEq] at h
          refine ⟨stream, displayVersion, rest, rfl, ha, hf,
            by rw [hc, h.1], h.2.symm, ?_⟩
          simp only [downloadAfterResolved, ha, hf, hc]

/-- Claim C5: the output stage is chosen solely from the stream's declared
`mime` property — `application/zip` pipes through the unzip extractor into
`outputPath` as a directory target, any other mime writes the raw payload to
`outputPath` as a single file — and every successful run's output has that
shape for the stream that served it. -/
theorem downloadOSImage_output_stage :
    (∀ (env : CloudEnv) (stream : ImageStream) (outputPath : String),
        (stream.mime = "application/zip" →
          chooseOutputStage env stream outputPath =
            (env.unzipExtract stream.payload).map
              (FileOutput.extractedDir outputPath)) ∧
        (stream.mime ≠ "application/zip" →
          chooseOutputStage env stream outputPath =
            Except.ok (FileOutput.singleFile outputPath stream.payload))) ∧
    (∀ (env : CloudEnv) (deviceType outputPath : String)
        (OSVersion : Option String) (out : FileOutput) (p : String),
        (downloadOSImage env deviceType outputPath OSVersion).outcome =
          Except.ok (out, p) →
        ∃ version stream,
          (downloadOSImage env deviceType outputPath OSVersion).requested =
              some version ∧
            env.managerGet deviceType version = Except.ok stream ∧
            (stream.mime = "application/zip" →
              ∃ entries, env.unzipExtract stream.payload = Except.ok entries ∧
                out = FileOutput.extractedDir outputPath entries) ∧
            (stream.mime ≠ "application/zip" →
              out = FileOutput.singleFile outputPath stream.payload)) := by
  constructor
  · intro env stream outputPath
    constructor
    · intro hm
      unfold chooseOutputStage
      rw [if_pos (beq_iff_eq.mpr hm)]
    · intro hm
      unfold chooseOutputStage
      rw [if_neg (fun hc => hm (beq_iff_eq.mp hc))]
  · intro env deviceType outputPath OSVersion out p h
    cases hr : resolvedVersionOf env deviceType OSVersion with
    | error e =>
      unfold downloadOSImage at h
      rw [hr] at h
      simp at h
    | ok version =>
      rw [downloadOSImage_eq_streamPhase env deviceType outputPath OSVersion
        version hr] at h
      obtain ⟨stream, dv, rest, hm, ha, hf, hc, hp, -⟩ :=
        downloadStreamPhase_outcome_ok env deviceType outputPath _ _ version out p h
      refine ⟨version, stream, ?_, hm, ?_, ?_⟩
      · rw [downloadOSImage_eq_streamPhase env deviceType outputPath OSVersion
          version hr, downloadStreamPhase_requested]
      · intro hmime
        unfold chooseOutputStage at hc
        rw [if_pos (beq_iff_eq.mpr hmime)] at hc
        cases hu : env.unzipExtract stream.payload with
        | error e => rw [hu] at hc; simp [Except.map] at hc
        | ok entries =>
          rw [hu] at hc
          simp only [Except.map, Except.ok.injEq] at hc
          exact ⟨entries, rfl, hc.symm⟩
      · intro hmime
        unfold chooseOutputStage at hc
        rw [if_neg (fun hb => hmime (beq_iff_eq.mp hb))] at hc
        rw [Except.ok.injEq] at hc
        exact hc.symm

/-- Witness for C5: a concrete successful non-zip run produces the raw
single-file output. -/
theorem downloadOSImage_output_stage_witness :
    chooseOutputStage demoEnv demoStream "/tmp/balena.img" =
      Except.ok (FileOutput.singleFile "/tmp/balena.img" demoStream.payload) :=
  ((downloadOSImage_output_stage.1 demoEnv demoStream "/tmp/balena.img").2
    (by decide))

/-- Stream phase when `manager.get` itself fails: the error propagates and
no visuals are created. -/
theorem downloadStreamPhase_managerError (env : CloudEnv)
    (deviceType outputPath : String) (infos warnings : List String)
    (version e : String)
    (hm : env.managerGet deviceType version = Except.error e) :
    downloadStreamPhase env deviceType outputPath infos warnings version =
      { infos, warnings, requested := some version, renders := [],
        outcome := Except.error e } := by
  unfold downloadStreamPhase
  rw [hm]

/-- Stream phase when the stream errors before `resolved-version`: the error
propagates and no visuals are created. -/
theorem downloadStreamPhase_awaitError (env : CloudEnv)
    (deviceType outputPath : String) (infos warnings : List String)
    (version : String) (stream : ImageStream) (e : String)
    (hm : env.managerGet deviceType version = Except.ok stream)
    (ha : awaitResolvedVersion stream.events = Except.error e) :
    downloadStreamPhase env deviceType outputPath infos warnings version =
      { infos, warnings, requested := some version, renders := [],
        outcome := Except.error e } := by
  unfold downloadStreamPhase
  rw [hm]
  simp only [ha]

/-- Stream phase once `resolved-version` has arrived: it is the
post-resolution stage on the remaining events. -/
theorem downloadStreamPhase_resolvedOk (env : CloudEnv)
    (deviceType outputPath : String) (infos warnings : List String)
    (version : String) (stream : ImageStream) (displayVersion : String)
    (rest : List StreamEvent)
    (hm : env.managerGet deviceType version = Except.ok stream)
    (ha : awaitResolvedVersion stream.events = Except.ok (displayVersion, rest)) :
    downloadStreamPhase env deviceType outputPath infos warnings version =
      downloadAfterResolved env outputPath infos warnings version stream
        displayVersion rest := by
  unfold downloadStreamPhase
  rw [hm]
  simp only [ha]

/-- The visuals created after resolution: the bar and spinner labelled with
the display version, then the handlers driven by the remaining events. -/
theorem downloadAfterResolved_renders (env : CloudEnv) (outputPath : String)
    (infos warnings : List String) (version : String) (stream : ImageStream)
    (displayVersion : String) (rest : List StreamEvent) :
    (downloadAfterResolved env outputPath infos warnings version stream
        displayVersion rest).renders =
      RenderEvent.barCreate ("Downloading balenaOS version " ++ displayVersion) ::
        RenderEvent.spinnerCreate
          ("Downloading balenaOS version " ++ displayVersion ++ " (size unknown)") ::
        progressRenders rest := by
  unfold downloadAfterResolved
  split
  · rfl
  · split <;> rfl

/-- Claim C6: the resolved-version event is observed strictly before any
progress rendering: a stream that errors before emitting `resolved-version`
fails the run with neither the progress bar nor the spinner ever created,
and when rendering does happen it consists of the two visuals created with
the resolved display version followed by handlers driven only by events
after the `resolved-version` event. -/
theorem downloadOSImage_resolved_before_progress :
    ∀ (env : CloudEnv) (deviceType outputPath : String)
      (OSVersion : Option String),
      (∀ (version : String) (stream : ImageStream) (e : String),
          (downloadOSImage env deviceType outputPath OSVersion).requested =
              some version →
          env.managerGet deviceType version = Except.ok stream →
          awaitResolvedVersion stream.events = Except.error e →
          (downloadOSImage env deviceType outputPath OSVersion).renders = [] ∧
            (downloadOSImage env deviceType outputPath OSVersion).outcome =
              Except.error e) ∧
      (∀ (version : String) (stream : ImageStream) (displayVersion : String)
          (rest : List StreamEvent),
          (downloadOSImage env deviceType outputPath OSVersion).requested =
              some version →
          env.managerGet deviceType version = Except.ok stream →
          awaitResolvedVersion stream.events = Except.ok (displayVersion, rest) →
          (downloadOSImage env deviceType outputPath OSVersion).renders =
            RenderEvent.barCreate
                ("Downloading balenaOS version " ++ displayVersion) ::
              RenderEvent.spinnerCreate
                ("Downloading balenaOS version " ++ displayVersion ++
                  " (size unknown)") ::
              progressRenders rest) := by
  intro env deviceType outputPath OSVersion
  constructor
  · intro version stream e hreq hm ha
    have hres := downloadOSImage_requested_ok env deviceType outputPath OSVersion
      version hreq
    rw [downloadOSImage_eq_streamPhase env deviceType outputPath OSVersion
      version hres]
    rw [downloadStreamPhase_awaitError env deviceType outputPath _ _ version
      stream e hm ha]
    exact ⟨rfl, rfl⟩
  · intro version stream displayVersion rest hreq hm ha
    have hres := downloadOSImage_requested_ok env deviceType outputPath OSVersion
      version hreq
    rw [downloadOSImage_eq_streamPhase env deviceType outputPath OSVersion
      version hres]
    rw [downloadStreamPhase_resolvedOk env deviceType outputPath _ _ version
      stream displayVersion rest hm ha]
    exact downloadAfterResolved_renders env outputPath _ _ version stream
      displayVersion rest

/-- A stream that errors before ever emitting `resolved-version`. -/
def earlyErrorStream : ImageStream :=
  { events := [StreamEvent.streamError "socket hang up"],
    mime := "application/octet-stream",
    payload := [] }

/-- An environment whose image manager serves `earlyErrorStream`. -/
def earlyErrorEnv : CloudEnv :=
  { catalog := demoCatalog,
    ask := defaultPicker,
    managerGet := fun _ _ => Except.ok earlyErrorStream,
    unzipExtract := fun bytes => Except.ok [("image.img", bytes)] }

/-- Witness for C6 at a concrete input: an early stream error yields no
renders and a failed run. -/
theorem downloadOSImage_resolved_before_progress_witness :
    (downloadOSImage earlyErrorEnv "raspberrypi4-64" "/tmp/balena.img"
          (some "v1.2.3")).renders = [] ∧
      (downloadOSImage earlyErrorEnv "raspberrypi4-64" "/tmp/balena.img"
          (some "v1.2.3")).outcome = Except.error "socket hang up" :=
  (downloadOSImage_resolved_before_progress earlyErrorEnv "raspberrypi4-64"
      "/tmp/balena.img" (some "v1.2.3")).1 "1.2.3.prod" earlyErrorStream
    "socket hang up" rfl rfl rfl

/-- Stream phase when an `error` event occurs after `resolved-version`
(mid-transfer failure): the drain rejects with it. -/
theorem downloadStreamPhase_midError (env : CloudEnv)
    (deviceType outputPath : String) (infos warnings : List String)
    (version : String) (stream : ImageStream) (displayVersion : String)
    (rest : List StreamEvent) (e : String)
    (hm : env.managerGet deviceType version = Except.ok stream)
    (ha : awaitResolvedVersion stream.events = Except.ok (displayVersion, rest))
    (hf : firstStreamError rest = some e) :
    (downloadStreamPhase env deviceType outputPath infos warnings
        version).outcome = Except.error e := by
  rw [downloadStreamPhase_resolvedOk env deviceType outputPath infos warnings
    version stream displayVersion rest hm ha]
  unfold downloadAfterResolved
  simp only [hf]

/-- Stream phase when the output stage (e.g. the unzip extractor) fails with
no stream error: the failure propagates. -/
theorem downloadStreamPhase_outputError (env : CloudEnv)
    (deviceType outputPath : String) (infos warnings : List String)
    (version : String) (stream : ImageStream) (displayVersion : String)
    (rest : List StreamEvent) (e : String)
    (hm : env.managerGet deviceType version = Except.ok stream)
    (ha : awaitResolvedVersion stream.events = Except.ok (displayVersion, rest))
    (hf : firstStreamError rest = none)
    (hc : chooseOutputStage env stream outputPath = Except.error e) :
    (downloadStreamPhase env deviceType outputPath infos warnings
        version).outcome = Except.error e := by
  rw [downloadStreamPhase_resolvedOk env deviceType outputPath infos warnings
    version stream displayVersion rest hm ha]
  unfold downloadAfterResolved
  simp only [hf, hc]

/-- Claim C7: every failure surfaced during a download — a stream-open
error, a mid-transfer stream error, or an output/decompression error —
fails the whole run with exactly that error (no retry, no partial-success
state); and only a successful run returns `outputPath` and ends its output
with the completion message naming the resolved display version. -/
theorem downloadOSImage_failure_propagation :
    ∀ (env : CloudEnv) (deviceType outputPath : String)
      (OSVersion : Option String),
      (∀ (version e : String),
          (downloadOSImage env deviceType outputPath OSVersion).requested =
              some version →
          env.managerGet deviceType version = Except.error e →
          (downloadOSImage env deviceType outputPath OSVersion).outcome =
            Except.error e) ∧
      (∀ (version : String) (stream : ImageStream) (displayVersion : String)
          (rest : List StreamEvent) (e : String),
          (downloadOSImage env deviceType outputPath OSVersion).requested =
              some version →
          env.managerGet deviceType version = Except.ok stream →
          awaitResolvedVersion stream.events = Except.ok (displayVersion, rest) →
          firstStreamError rest = some e →
          (downloadOSImage env deviceType outputPath OSVersion).outcome =
            Except.error e) ∧
      (∀ (version : String) (stream : ImageStream) (displayVersion : String)
          (rest : List StreamEvent) (e : String),
          (downloadOSImage env deviceType outputPath OSVersion).requested =
              some version →
          env.managerGet deviceType version = Except.ok stream →
          awaitResolvedVersion stream.events = Except.ok (displayVersion, rest) →
          firstStreamError rest = none →
          chooseOutputStage env stream outputPath = Except.error e →
          (downloadOSImage env deviceType outputPath OSVersion).outcome =
            Except.error e) ∧
      (∀ (out : FileOutput) (p : String),
          (downloadOSImage env deviceType outputPath OSVersion).outcome =
            Except.ok (out, p) →
          p = outputPath ∧
            ∃ displayVersion,
              (downloadOSImage env deviceType outputPath OSVersion).infos.getLast? =
                some ("balenaOS image version " ++ displayVersion ++
                  " downloaded successfully")) := by
  intro env deviceType outputPath OSVersion
  refine ⟨?_, ?_, ?_, ?_⟩
  · intro version e hreq hm
    have hres := downloadOSImage_requested_ok env deviceType outputPath OSVersion
      version hreq
    rw [downloadOSImage_eq_streamPhase env deviceType outputPath OSVersion
      version hres]
    rw [downloadStreamPhase_managerError env deviceType outputPath _ _ version
      e hm]
  · intro version stream displayVersion rest e hreq hm ha hf
    have hres := downloadOSImage_requested_ok env deviceType outputPath OSVersion
      version hreq
    rw [downloadOSImage_eq_streamPhase env deviceType outputPath OSVersion
      version hres]
    exact downloadStreamPhase_midError env deviceType outputPath _ _ version
      stream displayVersion rest e hm ha hf
  · intro version stream displayVersion rest e hreq hm ha hf hc
    have hres := downloadOSImage_requested_ok env deviceType outputPath OSVersion
      version hreq
    rw [downloadOSImage_eq_streamPhase env deviceType outputPath OSVersion
      version hres]
    exact downloadStreamPhase_outputError env deviceType outputPath _ _ version
      stream displayVersion rest e hm ha hf hc
  · intro out p h
    cases hr : resolvedVersionOf env deviceType OSVersion with
    | error e =>
      unfold downloadOSImage at h
      rw [hr] at h
      simp at h
    | ok version =>
      rw [downloadOSImage_eq_streamPhase env deviceType outputPath OSVersion
        version hr] at h ⊢
      obtain ⟨stream, displayVersion, rest, -, -, -, -, hp, hinfos⟩ :=
        downloadStreamPhase_outcome_ok env deviceType outputPath _ _ version
          out p h
      refine ⟨hp, displayVersion, ?_⟩
      rw [hinfos]
      exact List.getLast?_concat _

/-- An environment whose image manager fails to open the stream. -/
def openFailEnv : CloudEnv :=
  { catalog := demoCatalog,
    ask := defaultPicker,
    managerGet := fun _ _ => Except.error "ECONNRESET",
    unzipExtract := fun bytes => Except.ok [("image.img", bytes)] }

/-- Witness for C7 at a concrete input: a stream-open failure propagates as
the run's single error. -/
theorem downloadOSImage_failure_propagation_witness :
    (downloadOSImage openFailEnv "raspberrypi4-64" "/tmp/balena.img"
        none).outcome = Except.error "ECONNRESET" :=
  (downloadOSImage_failure_propagation openFailEnv "raspberrypi4-64"
      "/tmp/balena.img" none).1 "default" "ECONNRESET" rfl rfl

/-- A second `memoCall` with a key equal to the first call's key returns the
first call's result and leaves the cache unchanged. -/
theorem memoCall_idem {α β : Type} (keyOf : α → String) (f : α → β)
    (cache : MemoCache β) (x y : α) (r : β) (c1 : MemoCache β)
    (hkey : keyOf y = keyOf x)
    (h : memoCall keyOf f cache x = (r, c1)) :
    memoCall keyOf f c1 y = (r, c1) := by
  unfold memoCall at h ⊢
  rw [hkey]
  cases hl : cache.lookup (keyOf x) with
  | some v =>
    rw [hl] at h
    simp only [] at h
    cases h
    rw [hl]
  | none =>
    rw [hl] at h
    simp only [] at h
    cases h
    simp [List.lookup]

/-- A second `memoCallM` with a key equal to the first call's key returns
the first call's result, leaving both the cache and the inner state
unchanged. -/
theorem memoCallM_idem {α β σ : Type} (keyOf : α → String) (f : α → σ → β × σ)
    (cache : MemoCache β) (st : σ) (x y : α) (r : β) (c1 : MemoCache β)
    (st1 : σ) (hkey : keyOf y = keyOf x)
    (h : memoCallM keyOf f cache st x = (r, c1, st1)) :
    memoCallM keyOf f c1 st1 y = (r, c1, st1) := by
  unfold memoCallM at h ⊢
  rw [hkey]
  cases hl : cache.lookup (keyOf x) with
  | some v =>
    rw [hl] at h
    simp only [] at h
    cases h
    rw [hl]
  | none =>
    rw [hl] at h
    simp only [] at h
    cases h
    simp [List.lookup]

/-- `memoCall` never removes a cache entry. -/
theorem memoCall_lookup_mono {α β : Type} (keyOf : α → String) (f : α → β)
    (cache : MemoCache β) (x : α) (k : String) (v : β)
    (h : cache.lookup k = some v) :
    (memoCall keyOf f cache x).2.lookup k = some v := by
  unfold memoCall
  cases hl : cache.lookup (keyOf x) with
  | some w => exact h
  | none =>
    have hne : (k == keyOf x) = false := by
      rw [beq_eq_false_iff_ne]
      intro hk
      rw [hk, hl] at h
      cases h
    simp [List.lookup, hne, h]

/-- Claim C9: the memoized helper lookups are keyed by the single external
identifier only — `serviceIdToName` by the service id, the two UUID lookups
by the device UUID — so a second call with the same identifier returns the
first call's cached result even when the `sdk` argument or the field
selections differ, leaving the caches unchanged; and a call never removes an
existing cache entry. -/
theorem memoized_lookups_single_key :
    (∀ (cache : MemoCache (Option String)) (sdk1 sdk2 : SdkHandle)
        (serviceId : Int) (r : Option String) (c1 : MemoCache (Option String)),
        serviceIdToName cache sdk1 serviceId = (r, c1) →
        serviceIdToName c1 sdk2 serviceId = (r, c1)) ∧
    (∀ (cache : MemoCache (Except String (Device × Option Application)))
        (sdk1 sdk2 : SdkHandle) (deviceUUID : String)
        (d1 a1 d2 a2 : Option (List String))
        (r : Except String (Device × Option Application))
        (c1 : MemoCache (Except String (Device × Option Application))),
        getDeviceAndMaybeAppFromUUID cache sdk1 deviceUUID d1 a1 = (r, c1) →
        getDeviceAndMaybeAppFromUUID c1 sdk2 deviceUUID d2 a2 = (r, c1)) ∧
    (∀ (cacheA : MemoCache (Except String (Device × Application)))
        (cacheM : MemoCache (Except String (Device × Option Application)))
        (sdk1 sdk2 : SdkHandle) (deviceUUID : String)
        (d1 a1 d2 a2 : Option (List String))
        (r : Except String (Device × Application))
        (cA1 : MemoCache (Except String (Device × Application)))
        (cM1 : MemoCache (Except String (Device × Option Application))),
        getDeviceAndAppFromUUID cacheA cacheM sdk1 deviceUUID d1 a1 =
          (r, cA1, cM1) →
        getDeviceAndAppFromUUID cA1 cM1 sdk2 deviceUUID d2 a2 =
          (r, cA1, cM1)) ∧
    (∀ (cache : MemoCache (Option String)) (sdk : SdkHandle) (serviceId : Int)
        (k : String) (v : Option String),
        cache.lookup k = some v →
        (serviceIdToName cache sdk serviceId).2.lookup k = some v) ∧
    (∀ (cache : MemoCache (Except String (Device × Option Application)))
        (sdk : SdkHandle) (deviceUUID : String) (d a : Option (List String))
        (k : String) (v : Except String (Device × Option Application)),
        cache.lookup k = some v →
        (getDeviceAndMaybeAppFromUUID cache sdk deviceUUID d a).2.lookup k =
          some v) := by
  refine ⟨?_, ?_, ?_, ?_, ?_⟩
  · intro cache sdk1 sdk2 serviceId r c1 h
    exact memoCall_idem _ _ cache (sdk1, serviceId) (sdk2, serviceId) r c1 rfl h
  · intro cache sdk1 sdk2 deviceUUID d1 a1 d2 a2 r c1 h
    exact memoCall_idem _ _ cache
      ({ sdk := sdk1, deviceUUID, selectDeviceFields := d1,
         selectAppFields := a1 } : DeviceLookupArgs)
      ({ sdk := sdk2, deviceUUID, selectDeviceFields := d2,
         selectAppFields := a2 } : DeviceLookupArgs) r c1 rfl h
  · intro cacheA cacheM sdk1 sdk2 deviceUUID d1 a1 d2 a2 r cA1 cM1 h
    exact memoCallM_idem _ _ cacheA cacheM
      ({ sdk := sdk1, deviceUUID, selectDeviceFields := d1,
         selectAppFields := a1 } : DeviceLookupArgs)
      ({ sdk := sdk2, deviceUUID, selectDeviceFields := d2,
         selectAppFields := a2 } : DeviceLookupArgs) r cA1 cM1 rfl h
  · intro cache sdk serviceId k v h
    exact memoCall_lookup_mono _ _ cache (sdk, serviceId) k v h
  · intro cache sdk deviceUUID d a k v h
    exact memoCall_lookup_mono _ _ cache
      ({ sdk, deviceUUID, selectDeviceFields := d,
         selectAppFields := a } : DeviceLookupArgs) k v h

/-- An SDK handle that knows service 7 as `main`. -/
def sdkA : SdkHandle :=
  { pineGetService := fun _ => some { service_name := "main" },
    deviceGet := fun _ _ => Except.error "device not found" }

/-- An SDK handle that knows no services: a cache hit must shadow it. -/
def sdkB : SdkHandle :=
  { pineGetService := fun _ => none,
    deviceGet := fun _ _ => Except.error "device not found" }

/-- Witness for C9 at a concrete input: after a first lookup of service 7
through `sdkA`, a second lookup of service 7 through the different handle
`sdkB` returns the cached name and leaves the cache unchanged. -/
theorem memoized_lookups_single_key_witness :
    serviceIdToName [("7", some "main")] sdkB 7 =
      (some "main", [("7", some "main")]) :=
  memoized_lookups_single_key.1 [] sdkA sdkB 7 (some "main")
    [("7", some "main")] rfl

/-- Claim C10: `release export` and `release import` print their final
success message unconditionally: the bundle create/apply step runs inside a
`try` whose `catch` only logs, so a failed export (after a successful
release lookup) or a failed import still ends with the success message
instead of propagating the failure. -/
theorem release_commands_success_message_unconditional :
    (∀ (env : ReleaseExportEnv) (commitOrId output : String)
        (release : ReleaseRec),
        env.releaseGet commitOrId = Except.ok release →
        ∃ pre, releaseExportRun env commitOrId output =
          Except.ok (pre ++ [exportSuccessMessage commitOrId output])) ∧
    (∀ (env : ReleaseExportEnv) (commitOrId output : String)
        (release : ReleaseRec) (e : String),
        env.releaseGet commitOrId = Except.ok release →
        exportTryResult env release.id output = Except.error e →
        releaseExportRun env commitOrId output =
          Except.ok
            ["Release " ++ commitOrId ++ " could not be exported. " ++ e,
              exportSuccessMessage commitOrId output]) ∧
    (∀ (env : ReleaseImportEnv) (bundlePath : String) (fleet : Option String),
        ∃ pre, releaseImportRun env bundlePath fleet =
          pre ++ [importSuccessMessage bundlePath fleet]) ∧
    (∀ (env : ReleaseImportEnv) (bundlePath : String) (fleet : Option String)
        (e : String),
        importTryResult env bundlePath fleet = Except.error e →
        releaseImportRun env bundlePath fleet =
          ["Could not apply release bundle to fleet " ++ fleetDisplay fleet ++
              ". " ++ e,
            importSuccessMessage bundlePath fleet]) := by
  refine ⟨?_, ?_, ?_, ?_⟩
  · intro env commitOrId output release h
    cases ht : exportTryResult env release.id output with
    | ok u =>
      refine ⟨[], ?_⟩
      unfold releaseExportRun
      rw [h]
      simp only []
      rw [ht]
    | error e =>
      refine ⟨["Release " ++ commitOrId ++ " could not be exported. " ++ e], ?_⟩
      unfold releaseExportRun
      rw [h]
      simp only []
      rw [ht]
  · intro env commitOrId output release e h ht
    unfold releaseExportRun
    rw [h]
    simp only []
    rw [ht]
    rfl
  · intro env bundlePath fleet
    unfold releaseImportRun
    cases ht : importTryResult env bundlePath fleet with
    | ok u => exact ⟨[], rfl⟩
    | error e =>
      exact ⟨["Could not apply release bundle to fleet " ++
          fleetDisplay fleet ++ ". " ++ e], rfl⟩
  · intro env bundlePath fleet e ht
    unfold releaseImportRun
    rw [ht]
    rfl

/-- A release-export environment whose bundle-create step always fails. -/
def exportFailEnv : ReleaseExportEnv :=
  { releaseGet := fun _ => Except.ok { id := 1234567 },
    bundleCreate := fun _ => Except.error "bundle create failed",
    writeFile := fun _ _ => Except.ok () }

/-- Witness for C10 at a concrete input: with a failing bundle-create step,
`release export` logs the failure and still prints the success message. -/
theorem release_commands_success_message_unconditional_witness :
    releaseExportRun exportFailEnv "a777f734" "/tmp/release.tar" =
      Except.ok
        ["Release a777f734 could not be exported. bundle create failed",
          exportSuccessMessage "a777f734" "/tmp/release.tar"] :=
  release_commands_success_message_unconditional.2.1 exportFailEnv "a777f734"
    "/tmp/release.tar" { id := 1234567 } "bundle create failed" rfl rfl

end BalenaCli
